import Mathlib

/-!
Verification of the OVSDB client layer of `ovn_octavia_provider`
(`ovn_octavia_provider/ovsdb/impl_idl_ovn.py`), as a shallow embedding.

Conventions:
* Python dicts / OVSDB map columns become association lists
  `List (String × String)`; database tables keyed by uuid become
  `List (String × Row)`.
* Fallible Python code (constructors that may raise, `next(iter(...))`,
  dict indexing) returns `Except String _`.
* The external `netaddr` library (only `IPNetwork(s).version` is used by
  the source) is modelled by an executable parser `IPNetwork_version`
  classifying a string as IPv4 (`some 4`), IPv6 (`some 6`) or
  unparseable (`none`).
-/

namespace ImplIdlOvn

/-! ### Model of `netaddr.IPNetwork(s).version` -/

/-- Split a character list on a single separator character (kept
executable down to the kernel, unlike `String.splitOn`). -/
def splitOnChar (sep : Char) : List Char → List (List Char)
  | [] => [[]]
  | c :: rest =>
      if c = sep then [] :: splitOnChar sep rest
      else
        match splitOnChar sep rest with
        | [] => [[c]]
        | g :: gs => (c :: g) :: gs

/-- Split a character list on the two-character separator `::`, with the
semantics of Python's `str.split`. -/
def splitOnColonColon : List Char → List (List Char)
  | [] => [[]]
  | ':' :: ':' :: rest => [] :: splitOnColonColon rest
  | c :: rest =>
      match splitOnColonColon rest with
      | [] => [[c]]
      | g :: gs => (c :: g) :: gs

/-- Decimal value of a digit string. -/
def decValue (cs : List Char) : Nat :=
  cs.foldl (fun acc c => acc * 10 + (c.toNat - 48)) 0

/-- A decimal octet `0..255`, as accepted for one dotted-quad component. -/
def isIPv4Octet (cs : List Char) : Bool :=
  decide (0 < cs.length) && decide (cs.length ≤ 3) &&
    cs.all Char.isDigit && decide (decValue cs ≤ 255)

/-- Dotted-quad IPv4 address text. -/
def isIPv4 (cs : List Char) : Bool :=
  let parts := splitOnChar '.' cs
  decide (parts.length = 4) && parts.all isIPv4Octet

/-- One 16-bit group of an IPv6 address: 1 to 4 hex digits. -/
def isHextet (cs : List Char) : Bool :=
  decide (0 < cs.length) && decide (cs.length ≤ 4) &&
    cs.all (fun c => c.isDigit || ('a' ≤ c && c ≤ 'f') || ('A' ≤ c && c ≤ 'F'))

/-- IPv6 address text: eight hextets, or fewer with a single `::` gap. -/
def isIPv6 (cs : List Char) : Bool :=
  match splitOnColonColon cs with
  | [a] =>
      let gs := splitOnChar ':' a
      decide (gs.length = 8) && gs.all isHextet
  | [a, b] =>
      let ga := if a.isEmpty then [] else splitOnChar ':' a
      let gb := if b.isEmpty then [] else splitOnChar ':' b
      decide (ga.length + gb.length ≤ 7) && ga.all isHextet && gb.all isHextet
  | _ => false

/-- Model of `netaddr.IPNetwork(s).version`: the text (optionally followed
by a `/prefixlen`) parses as IPv4 (`some 4`), IPv6 (`some 6`), or fails
(`none`, modelling the `AddrFormatError` the library raises). -/
def IPNetwork_version (s : String) : Option Nat :=
  let addr := (splitOnChar '/' s.data).headD s.data
  if isIPv4 addr then some 4
  else if isIPv6 addr then some 6
  else none

/-! ### OVSDB map columns: `setkey` / `delkey` / read

`Row.setkey(col, k, v)` overwrites the value for `k` (inserting if
absent); `Row.delkey(col, k)` removes `k` (a no-op if absent); a read of
a map column looks a key up. -/

/-- OVSDB map-column mutation `setkey`: overwrite the first binding of
`k`, or append `(k, v)` when `k` is absent. -/
def setkey : List (String × String) → String → String → List (String × String)
  | [], k, v => [(k, v)]
  | (k', v') :: rest, k, v =>
      if k' = k then (k, v) :: rest else (k', v') :: setkey rest k v

/-- OVSDB map-column mutation `delkey`: remove every binding of `k`
(a no-op when `k` is absent). -/
def delkey (m : List (String × String)) (k : String) : List (String × String) :=
  m.filter (fun p => p.1 ≠ k)

/-! ### The mirrored `Load_Balancer` table -/

/-- The slice of a `Load_Balancer` row the commands touch: its
`ip_port_mappings` map column. -/
structure LoadBalancerRow where
  ip_port_mappings : List (String × String)
deriving Repr, DecidableEq

/-- The mirrored `Load_Balancer` table, keyed by the owner uuid. -/
abbrev LBTable := List (String × LoadBalancerRow)

/-- `self.api.lookup('Load_Balancer', lb)`: returns the row or raises
`RowNotFound`. -/
def apiLookup (db : LBTable) (lb : String) : Except String LoadBalancerRow :=
  match db.lookup lb with
  | some row => .ok row
  | none => .error "RowNotFound"

/-- Replace the first row bound to `lb` (mutating the row object found by
`apiLookup` in place, as the IDL does). -/
def dbUpdate : LBTable → String → LoadBalancerRow → LBTable
  | [], _, _ => []
  | (k, r) :: rest, lb, row =>
      if k = lb then (k, row) :: rest else (k, r) :: dbUpdate rest lb row

/-! ### `DelBackendFromIPPortMapping` and `AddBackendToIPPortMapping`

Both commands normalize addresses in `__init__` (so an unparseable
`backend_ip` raises there, before any `run_idl` catch), and wrap their
`run_idl` body in a broad catch-and-log. -/

/-- State of a constructed `DelBackendFromIPPortMapping` command. -/
structure DelBackendFromIPPortMapping where
  lb : String
  backend_ip : String
deriving Repr, DecidableEq

/-- `DelBackendFromIPPortMapping.__init__`: brackets `backend_ip` iff
`netaddr.IPNetwork(backend_ip).version == 6`; an unparseable address
raises `AddrFormatError` out of the constructor. -/
def DelBackendFromIPPortMapping.init (lb backend_ip : String) :
    Except String DelBackendFromIPPortMapping :=
  match IPNetwork_version backend_ip with
  | none => .error ("AddrFormatError: " ++ backend_ip)
  | some v =>
      if v = 6 then .ok { lb := lb, backend_ip := "[" ++ backend_ip ++ "]" }
      else .ok { lb := lb, backend_ip := backend_ip }

/-- Body of `DelBackendFromIPPortMapping.run_idl` before the
`except Exception` handler: look the owner up and delete the key. -/
def DelBackendFromIPPortMapping.run_idl_body
    (cmd : DelBackendFromIPPortMapping) (db : LBTable) :
    Except String LBTable := do
  let ovn_lb ← apiLookup db cmd.lb
  pure (dbUpdate db cmd.lb
    { ovn_lb with
        ip_port_mappings := delkey ovn_lb.ip_port_mappings cmd.backend_ip })

/-- `DelBackendFromIPPortMapping.run_idl`: any failure in the body is
caught and logged, leaving the database untouched and raising nothing. -/
def DelBackendFromIPPortMapping.run_idl
    (cmd : DelBackendFromIPPortMapping) (db : LBTable) : LBTable :=
  match cmd.run_idl_body db with
  | .ok db' => db'
  | .error _ => db

/-- State of a constructed `AddBackendToIPPortMapping` command. -/
structure AddBackendToIPPortMapping where
  lb : String
  backend_ip : String
  port_name : String
  src_ip : String
deriving Repr, DecidableEq

/-- `AddBackendToIPPortMapping.__init__`: if
`netaddr.IPNetwork(backend_ip).version == 6` then BOTH `backend_ip` and
`src_ip` are bracketed (the source never parses `src_ip` itself); an
unparseable `backend_ip` raises `AddrFormatError` out of the
constructor. -/
def AddBackendToIPPortMapping.init
    (lb backend_ip port_name src_ip : String) :
    Except String AddBackendToIPPortMapping :=
  match IPNetwork_version backend_ip with
  | none => .error ("AddrFormatError: " ++ backend_ip)
  | some v =>
      if v = 6 then
        .ok { lb := lb, backend_ip := "[" ++ backend_ip ++ "]",
              port_name := port_name, src_ip := "[" ++ src_ip ++ "]" }
      else
        .ok { lb := lb, backend_ip := backend_ip,
              port_name := port_name, src_ip := src_ip }

/-- Body of `AddBackendToIPPortMapping.run_idl` before the
`except Exception` handler: look the owner up and set
`backend_ip -> "port_name:src_ip"`. -/
def AddBackendToIPPortMapping.run_idl_body
    (cmd : AddBackendToIPPortMapping) (db : LBTable) :
    Except String LBTable := do
  let lbRow ← apiLookup db cmd.lb
  pure (dbUpdate db cmd.lb
    { lbRow with
        ip_port_mappings :=
          setkey lbRow.ip_port_mappings cmd.backend_ip
            (cmd.port_name ++ ":" ++ cmd.src_ip) })

/-- `AddBackendToIPPortMapping.run_idl`: any failure in the body is
caught and logged, leaving the database untouched and raising nothing. -/
def AddBackendToIPPortMapping.run_idl
    (cmd : AddBackendToIPPortMapping) (db : LBTable) : LBTable :=
  match cmd.run_idl_body db with
  | .ok db' => db'
  | .error _ => db

/-! ### `OvnNbTransaction.pre_commit` and the transaction wrapper -/

/-- The `NB_Global` row: only its `nb_cfg` counter column matters here. -/
structure NBGlobalRow where
  nb_cfg : Int
deriving Repr, DecidableEq

/-- The state a northbound transaction can touch: the global counter row
and the mirrored `Load_Balancer` table. -/
structure NbState where
  nb_global : NBGlobalRow
  lbs : LBTable
deriving Repr, DecidableEq

/-- `OvnNbTransaction.pre_commit(txn)`: when `bump_nb_cfg` is set it
queues exactly one `increment('nb_cfg')` on the `NB_Global` row inside
the transaction; otherwise it returns without touching anything. -/
def OvnNbTransaction.pre_commit (bump_nb_cfg : Bool) (s : NbState) : NbState :=
  if bump_nb_cfg then
    { s with nb_global := { nb_cfg := s.nb_global.nb_cfg + 1 } }
  else s

/-- Atomic commit of a queued transaction: the server applies the
pre-commit step together with the queued operations, or rejects the
whole transaction leaving the state untouched. -/
def OvnNbTransaction.commit (bump_nb_cfg : Bool) (ops : NbState → NbState)
    (accepted : Bool) (s : NbState) : NbState :=
  if accepted then ops (OvnNbTransaction.pre_commit bump_nb_cfg s) else s

/-- Errors a commit can raise. -/
inductive CommitError where
  | revisionConflict (reason : String)
  | other (err : String)
deriving Repr, DecidableEq

/-- Outcome of the wrapped `ovsdbapp` transaction context: either a new
state or an error, in which case nothing was applied. -/
def OvsdbNbOvnIdl.transaction (s : NbState)
    (outcome : Except CommitError NbState) : Except CommitError NbState :=
  match outcome with
  | .ok s' => .ok s'
  | .error (.revisionConflict _) => .ok s
  | .error e => .error e

/-! ### `Backend`: table/column introspection and the bounded retry -/

/-- A table schema as the mirror registers it: its column names. -/
structure TableSchema where
  columns : List String
deriving Repr, DecidableEq

/-- The registered tables (`self._tables`), keyed by table name. -/
abbrev Tables := List (String × TableSchema)

/-- `Backend.is_table_present`: `table_name in self._tables`. -/
def Backend.is_table_present (tables : Tables) (table_name : String) : Bool :=
  (tables.lookup table_name).isSome

/-- Python dict indexing `self._tables[table_name]`: raises `KeyError`
when absent. -/
def Backend.getTable (tables : Tables) (table_name : String) :
    Except String TableSchema :=
  match tables.lookup table_name with
  | some t => .ok t
  | none => .error "KeyError"

/-- `Backend.is_col_present`: the short-circuiting
`is_table_present(t) and (c in self._tables[t].columns)`; the indexing
is only reached when the table is present. -/
def Backend.is_col_present (tables : Tables) (table_name col_name : String) :
    Except String Bool :=
  if Backend.is_table_present tables table_name then do
    let t ← Backend.getTable tables table_name
    pure (decide (col_name ∈ t.columns))
  else
    pure false

/-- One attempt of the body of `check_for_row_by_value_and_retry`:
`idlutils.row_by_value` either finds the row (`found n = true` at
attempt `n`) or raises `RowNotFound`, which the body converts into a
`RuntimeError` with the formatted message. -/
def checkAttempt (found : Nat → Bool) (table column m : String) (n : Nat) :
    Except String Unit :=
  if found n then .ok ()
  else .error (m ++ " does not exist in " ++ column ++ " of " ++ table)

/-- `tenacity.wait_exponential()` with the default multiplier 1: the
sleep after attempt number `n` is `2 ^ n` seconds. -/
def wait_exponential (attempt : Nat) : Nat := 2 ^ attempt

/-- The `tenacity.retry` driver with
`retry_if_exception_type(RuntimeError)`, `wait_exponential()`,
`stop_after_delay(10)` and `reraise=True`: run an attempt; on failure,
stop and re-raise the last error once the elapsed time has reached the
10-second budget, otherwise sleep exponentially and retry. -/
def tenacityRetry (f : Nat → Except String Unit) (attempt elapsed : Nat) :
    Except String Unit :=
  match f attempt with
  | .ok () => .ok ()
  | .error msg =>
      if _h : 10 ≤ elapsed then .error msg
      else tenacityRetry f (attempt + 1) (elapsed + wait_exponential attempt)
termination_by 10 - elapsed
decreasing_by
  simp only [wait_exponential]
  have hw : 1 ≤ 2 ^ attempt := Nat.one_le_two_pow
  omega

/-- `Backend.check_for_row_by_value_and_retry(table, column, match)`,
with the mirror abstracted as `found n` (whether the point lookup
succeeds on attempt `n`): attempts start at number 1 with no time
elapsed. -/
def Backend.check_for_row_by_value_and_retry
    (found : Nat → Bool) (table column m : String) : Except String Unit :=
  tenacityRetry (checkAttempt found table column m) 1 0

/-! ### `FindLbInTableCommand` -/

/-- A row of a table whose rows reference load balancers through their
`load_balancer` column. -/
structure OVNTableRow where
  uuid : String
  load_balancer : List String
deriving Repr, DecidableEq

/-- `rowview.RowView(item)`: a read-only wrapper around a mirrored row. -/
structure RowView where
  row : OVNTableRow
deriving Repr, DecidableEq

/-- `FindLbInTableCommand.run_idl`: list-comprehension over
`self.api.tables[self.table].rows.values()`, keeping the rows whose
`load_balancer` contains `self.lb`, each wrapped in a `RowView`. -/
def FindLbInTableCommand.run_idl (rows : List OVNTableRow) (lb : String) :
    List RowView :=
  (rows.filter (fun item => decide (lb ∈ item.load_balancer))).map RowView.mk

/-! ### `OvsdbNbOvnIdl.nb_global` -/

/-- `next(iter(self.tables['NB_Global'].rows.values()))`: the first
mirrored `NB_Global` row, raising `StopIteration` when the table is
empty. -/
def OvsdbNbOvnIdl.nb_global (rows : List NBGlobalRow) :
    Except String NBGlobalRow :=
  match rows with
  | [] => .error "StopIteration"
  | r :: _ => .ok r

/-! ### `OvnSbIdlForLb.stop` -/

/-- The lifecycle state of an `OvnSbIdlForLb` handle: whether the
`conn` attribute exists (`hasattr`), how many times the network session
has been released by `conn.stop`, and whether the notification handler
and the IDL session have been shut down. -/
structure SbIdlState where
  conn : Option Unit
  released : Nat
  notifyShutdown : Bool
  idlClosed : Bool
deriving Repr, DecidableEq

/-- `OvnSbIdlForLb.stop`: release the connection only when the `conn`
attribute exists (then `del self.conn`), then shut the notification
handler down and close the IDL session. -/
def OvnSbIdlForLb.stop (s : SbIdlState) : SbIdlState :=
  let s1 :=
    match s.conn with
    | some _ => { s with conn := none, released := s.released + 1 }
    | none => s
  { s1 with notifyShutdown := true, idlClosed := true }

/-- The handle state before `start` was ever called: no `conn`
attribute, no session released yet. -/
def OvnSbIdlForLb.initState : SbIdlState :=
  { conn := none, released := 0, notifyShutdown := false, idlClosed := false }

/-- `OvnSbIdlForLb.start`: creates the `conn` attribute. -/
def OvnSbIdlForLb.start (s : SbIdlState) : SbIdlState :=
  { s with conn := some () }

/-! ### Helper lemmas on the association-list operations -/

theorem lookup_setkey (m : List (String × String)) (k v : String) :
    (setkey m k v).lookup k = some v := by
  induction m with
  | nil => simp [setkey, List.lookup]
  | cons p rest ih =>
      obtain ⟨k', v'⟩ := p
      by_cases h : k' = k
      · simp [setkey, h, List.lookup]
      · have hbe : (k == k') = false := beq_eq_false_iff_ne.mpr (Ne.symm h)
        simp [setkey, h, List.lookup, hbe, ih]

theorem delkey_of_not_mem (m : List (String × String)) (k : String)
    (h : k ∉ m.map Prod.fst) : delkey m k = m := by
  apply List.filter_eq_self.mpr
  intro a ha
  simp only [ne_eq, decide_eq_true_eq]
  intro hk
  exact h (hk ▸ List.mem_map_of_mem Prod.fst ha)

theorem dbUpdate_self (db : LBTable) (lb : String) (row : LoadBalancerRow)
    (h : db.lookup lb = some row) : dbUpdate db lb row = db := by
  induction db with
  | nil => simp [List.lookup] at h
  | cons p rest ih =>
      obtain ⟨k, r⟩ := p
      by_cases hk : k = lb
      · subst hk
        simp only [List.lookup, beq_self_eq_true, Option.some.injEq] at h
        simp [dbUpdate, h]
      · have hbe : (lb == k) = false := beq_eq_false_iff_ne.mpr (Ne.symm hk)
        simp only [List.lookup, hbe] at h
        simp [dbUpdate, hk, ih h]

theorem lookup_dbUpdate (db : LBTable) (lb : String)
    (row row0 : LoadBalancerRow) (h : db.lookup lb = some row0) :
    (dbUpdate db lb row).lookup lb = some row := by
  induction db with
  | nil => simp [List.lookup] at h
  | cons p rest ih =>
      obtain ⟨k, r⟩ := p
      by_cases hk : k = lb
      · subst hk
        simp [dbUpdate, List.lookup]
      · have hbe : (lb == k) = false := beq_eq_false_iff_ne.mpr (Ne.symm hk)
        simp only [List.lookup, hbe] at h
        simp [dbUpdate, hk, List.lookup, hbe, ih h]

theorem tenacityRetry_error (f : Nat → Except String Unit) (msg : String)
    (hf : ∀ n, f n = .error msg) :
    ∀ (k attempt elapsed : Nat), 10 - elapsed ≤ k →
      tenacityRetry f attempt elapsed = .error msg := by
  intro k
  induction k with
  | zero =>
      intro attempt elapsed he
      have h10 : 10 ≤ elapsed := by omega
      rw [tenacityRetry, hf attempt]
      simp [h10]
  | succ k ih =>
      intro attempt elapsed he
      rw [tenacityRetry, hf attempt]
      by_cases h10 : 10 ≤ elapsed
      · simp [h10]
      · simp only [h10, dite_false]
        apply ih
        have hw : 1 ≤ 2 ^ attempt := Nat.one_le_two_pow
        simp only [wait_exponential]
        omega

theorem add_run_found (cmd : AddBackendToIPPortMapping) (db : LBTable)
    (row : LoadBalancerRow) (h : db.lookup cmd.lb = some row) :
    cmd.run_idl db = dbUpdate db cmd.lb
      { row with ip_port_mappings := setkey row.ip_port_mappings cmd.backend_ip
                   (cmd.port_name ++ ":" ++ cmd.src_ip) } := by
  simp [AddBackendToIPPortMapping.run_idl, AddBackendToIPPortMapping.run_idl_body,
    apiLookup, h, Except.bind]

theorem add_run_notfound (cmd : AddBackendToIPPortMapping) (db : LBTable)
    (h : db.lookup cmd.lb = none) : cmd.run_idl db = db := by
  simp [AddBackendToIPPortMapping.run_idl, AddBackendToIPPortMapping.run_idl_body,
    apiLookup, h, Except.bind]

theorem del_run_found (cmd : DelBackendFromIPPortMapping) (db : LBTable)
    (row : LoadBalancerRow) (h : db.lookup cmd.lb = some row) :
    cmd.run_idl db = dbUpdate db cmd.lb
      { row with ip_port_mappings := delkey row.ip_port_mappings cmd.backend_ip } := by
  simp [DelBackendFromIPPortMapping.run_idl, DelBackendFromIPPortMapping.run_idl_body,
    apiLookup, h, Except.bind]

theorem del_run_notfound (cmd : DelBackendFromIPPortMapping) (db : LBTable)
    (h : db.lookup cmd.lb = none) : cmd.run_idl db = db := by
  simp [DelBackendFromIPPortMapping.run_idl, DelBackendFromIPPortMapping.run_idl_body,
    apiLookup, h, Except.bind]

/-- Membership characterization of `FindLbInTableCommand.run_idl`: a view
is in the result iff its row is in the table and references the load
balancer. -/
theorem find_lb_mem (rows : List OVNTableRow) (lb : String) (v : RowView) :
    v ∈ FindLbInTableCommand.run_idl rows lb ↔
      v.row ∈ rows ∧ lb ∈ v.row.load_balancer := by
  constructor
  · intro hv
    simp only [FindLbInTableCommand.run_idl, List.mem_map, List.mem_filter,
      decide_eq_true_eq] at hv
    obtain ⟨r, ⟨hr, hlb⟩, hv⟩ := hv
    subst hv
    exact ⟨hr, hlb⟩
  · intro h
    simp only [FindLbInTableCommand.run_idl, List.mem_map, List.mem_filter,
      decide_eq_true_eq]
    exact ⟨v.row, ⟨h.1, h.2⟩, rfl⟩

/-! ### The claims -/

/-- C2: the wrapped transaction context catches a `RevisionConflict`
raised by commit, logs it, and the caller observes no exception and no
partial effect (the prior state is what stands); any other commit error
propagates unchanged, and a successful commit's result is returned
as-is. -/
theorem C2_transaction_conflict_handling (s s' : NbState) (r e : String) :
    OvsdbNbOvnIdl.transaction s (.error (.revisionConflict r)) = .ok s ∧
    OvsdbNbOvnIdl.transaction s (.error (.other e)) = .error (.other e) ∧
    OvsdbNbOvnIdl.transaction s (.ok s') = .ok s' :=
  ⟨rfl, rfl, rfl⟩

/-- C5: with `bump_nb_cfg = true` the pre-commit hook increments the
`NB_Global` row's `nb_cfg` exactly once and touches nothing else; with
`bump_nb_cfg = false` it is the identity; the increment is applied
inside the same atomic commit, so it is visible iff the rest of the
transaction's effects are visible (a rejected commit leaves the counter
unchanged). -/
theorem C5_pre_commit_bumps_nb_cfg (s : NbState) (ops : NbState → NbState) :
    (OvnNbTransaction.pre_commit true s).nb_global.nb_cfg =
      s.nb_global.nb_cfg + 1 ∧
    (OvnNbTransaction.pre_commit true s).lbs = s.lbs ∧
    OvnNbTransaction.pre_commit false s = s ∧
    OvnNbTransaction.commit true ops true s =
      ops { s with nb_global := { nb_cfg := s.nb_global.nb_cfg + 1 } } ∧
    (∀ b, OvnNbTransaction.commit b ops false s = s) :=
  ⟨rfl, rfl, rfl, rfl, fun _ => rfl⟩

/-- C6: `is_col_present` never raises: it returns `false` when the table
is not registered (the short-circuit protects the dict indexing), and
otherwise reports whether the column is among that table's columns. -/
theorem C6_is_col_present_total (tables : Tables) (t c : String) :
    Backend.is_col_present tables t c =
      .ok (match tables.lookup t with
           | none => false
           | some schema => decide (c ∈ schema.columns)) := by
  cases h : tables.lookup t <;>
    simp [Backend.is_col_present, Backend.is_table_present, Backend.getTable,
      h, bind, Except.bind, pure, Except.pure]

/-- C8: the stop signal is idempotent on the handle state (a second
`stop` is exactly a no-op), `stop` before `start` releases no session
and raises nothing (the `hasattr` guard), and a started session is
released exactly once across repeated stops. -/
theorem C8_stop_idempotent (s : SbIdlState) :
    OvnSbIdlForLb.stop (OvnSbIdlForLb.stop s) = OvnSbIdlForLb.stop s ∧
    (OvnSbIdlForLb.stop s).released ≤ s.released + 1 ∧
    (OvnSbIdlForLb.stop OvnSbIdlForLb.initState).released = 0 ∧
    (OvnSbIdlForLb.stop OvnSbIdlForLb.initState).conn = none ∧
    (OvnSbIdlForLb.stop (OvnSbIdlForLb.stop (OvnSbIdlForLb.start s))).released =
      s.released + 1 := by
  obtain ⟨conn, rel, nsd, cl⟩ := s
  cases conn <;>
    simp [OvnSbIdlForLb.stop, OvnSbIdlForLb.initState, OvnSbIdlForLb.start]

/-- C10: `nb_global` returns the first mirrored `NB_Global` row, and
raises `StopIteration` when the mirrored table is empty rather than
returning an empty or optional result. -/
theorem C10_nb_global_first_row :
    OvsdbNbOvnIdl.nb_global ([] : List NBGlobalRow) = .error "StopIteration" ∧
    ∀ (r : NBGlobalRow) (rest : List NBGlobalRow),
      OvsdbNbOvnIdl.nb_global (r :: rest) = .ok r :=
  ⟨rfl, fun _ _ => rfl⟩

/-- C3: when no matching row ever becomes visible in the mirror,
`check_for_row_by_value_and_retry` retries with exponential backoff,
stops once the 10-second wall-clock budget is exhausted, and re-raises
the final not-found error (a `RuntimeError` wrapping `RowNotFound`, with
the formatted message) to the caller: it terminates (the model is a
total function) and does not swallow the error. -/
theorem C3_check_retry_exhausts_and_raises (found : Nat → Bool)
    (table column m : String) (h : ∀ n, found n = false) :
    Backend.check_for_row_by_value_and_retry found table column m =
      .error (m ++ " does not exist in " ++ column ++ " of " ++ table) := by
  unfold Backend.check_for_row_by_value_and_retry
  exact tenacityRetry_error _ _ (fun n => by simp [checkAttempt, h n]) 10 1 0
    (by omega)

/-- Witness for C3 at a concrete never-matching lookup. -/
theorem C3_witness :
    Backend.check_for_row_by_value_and_retry (fun _ => false)
      "Logical_Switch" "name" "ls0" =
      .error ("ls0" ++ " does not exist in " ++ "name" ++ " of " ++
        "Logical_Switch") :=
  C3_check_retry_exhausts_and_raises (fun _ => false) "Logical_Switch" "name"
    "ls0" (fun _ => rfl)

/-- C9: both compound-mutation commands normalize the backend address in
their constructor, before the best-effort catch inside `run_idl`, so an
unparseable backend address raises the parse error (`AddrFormatError`)
to the caller instead of being caught and logged. -/
theorem C9_init_raises_on_unparseable (lb bip pn sip : String)
    (h : IPNetwork_version bip = none) :
    DelBackendFromIPPortMapping.init lb bip =
      .error ("AddrFormatError: " ++ bip) ∧
    AddBackendToIPPortMapping.init lb bip pn sip =
      .error ("AddrFormatError: " ++ bip) := by
  constructor <;>
    simp [DelBackendFromIPPortMapping.init, AddBackendToIPPortMapping.init, h]

/-- Witness for C9 at a concrete unparseable address. -/
theorem C9_witness :
    DelBackendFromIPPortMapping.init "lb1" "not-an-ip" =
      .error ("AddrFormatError: " ++ "not-an-ip") ∧
    AddBackendToIPPortMapping.init "lb1" "not-an-ip" "port-a" "10.0.0.5" =
      .error ("AddrFormatError: " ++ "not-an-ip") :=
  C9_init_raises_on_unparseable "lb1" "not-an-ip" "port-a" "10.0.0.5"
    (by decide)

/-- C4: `DelBackendFromIPPortMapping` normalizes the backend address
(bracketed iff IPv6), deletes that key from the owner's
`ip_port_mappings`, and catches any failure in `run_idl` (owner not
found included) without propagating it; deleting an absent key
completes without raising and leaves the database unchanged. -/
theorem C4_del_mapping_best_effort (lb bip : String) (v : Nat)
    (hv : IPNetwork_version bip = some v) :
    ∃ cmd, DelBackendFromIPPortMapping.init lb bip = .ok cmd ∧
      cmd.lb = lb ∧
      cmd.backend_ip = (if v = 6 then "[" ++ bip ++ "]" else bip) ∧
      (∀ db row, db.lookup lb = some row →
        cmd.run_idl db = dbUpdate db lb
          { row with ip_port_mappings :=
                       delkey row.ip_port_mappings cmd.backend_ip }) ∧
      (∀ db, db.lookup lb = none → cmd.run_idl db = db) ∧
      (∀ db row, db.lookup lb = some row →
        cmd.backend_ip ∉ row.ip_port_mappings.map Prod.fst →
        cmd.run_idl db = db) := by
  refine ⟨{ lb := lb, backend_ip := if v = 6 then "[" ++ bip ++ "]" else bip },
    ?_, rfl, rfl, ?_, ?_, ?_⟩
  · by_cases h6 : v = 6 <;> simp [DelBackendFromIPPortMapping.init, hv, h6]
  · intro db row h
    exact del_run_found _ db row h
  · intro db h
    exact del_run_notfound _ db h
  · intro db row h hnm
    rw [del_run_found _ db row h, delkey_of_not_mem _ _ hnm]
    exact dbUpdate_self db lb row h

/-- Witness for C4 at a concrete IPv6 backend address. -/
theorem C4_witness :
    IPNetwork_version "2001:db8::10" = some 6 ∧
    (∃ cmd, DelBackendFromIPPortMapping.init "lb1" "2001:db8::10" = .ok cmd ∧
      cmd.lb = "lb1" ∧
      cmd.backend_ip =
        (if 6 = 6 then "[" ++ "2001:db8::10" ++ "]" else "2001:db8::10") ∧
      (∀ db row, db.lookup "lb1" = some row →
        cmd.run_idl db = dbUpdate db "lb1"
          { row with ip_port_mappings :=
                       delkey row.ip_port_mappings cmd.backend_ip }) ∧
      (∀ db, db.lookup "lb1" = none → cmd.run_idl db = db) ∧
      (∀ db row, db.lookup "lb1" = some row →
        cmd.backend_ip ∉ row.ip_port_mappings.map Prod.fst →
        cmd.run_idl db = db)) :=
  ⟨by decide, C4_del_mapping_best_effort "lb1" "2001:db8::10" 6 (by decide)⟩

/-- C1 counterexample: the claim says the stored value brackets the
source address iff the source address is IPv6. With an IPv4 backend
("10.0.0.1") and an IPv6 source ("2001:db8::2"), the command stores the
source unbracketed (the code decides both brackets from the backend's
version alone): running it against an owner with an empty map stores
value `"port-a:2001:db8::2"`, not `"port-a:[2001:db8::2]"`. -/
theorem C1_counterexample :
    IPNetwork_version "2001:db8::2" = some 6 ∧
    AddBackendToIPPortMapping.init "lb1" "10.0.0.1" "port-a" "2001:db8::2" =
      .ok { lb := "lb1", backend_ip := "10.0.0.1", port_name := "port-a",
            src_ip := "2001:db8::2" } ∧
    AddBackendToIPPortMapping.run_idl
        { lb := "lb1", backend_ip := "10.0.0.1", port_name := "port-a",
          src_ip := "2001:db8::2" } [("lb1", ⟨[]⟩)] =
      [("lb1", ⟨[("10.0.0.1", "port-a:2001:db8::2")]⟩)] ∧
    ("port-a:2001:db8::2" : String) ≠ "port-a:" ++ "[" ++ "2001:db8::2" ++ "]" :=
  ⟨by decide, rfl, by decide, by decide⟩

/-- C1 (amended): `AddBackendToIPPortMapping` normalizes both addresses
from the BACKEND address's version: the stored key is the backend
address bracketed iff the backend address is IPv6, and the stored value
is `port_name:src_ip` with the source address bracketed iff the backend
address is IPv6; after adding, a read of the owner's `ip_port_mappings`
yields exactly that key mapped to that value, and IPv4 backends produce
no brackets at all. -/
theorem C1_add_mapping_normalized_by_backend (lb bip pn sip : String)
    (v : Nat) (hv : IPNetwork_version bip = some v) :
    ∃ cmd, AddBackendToIPPortMapping.init lb bip pn sip = .ok cmd ∧
      cmd.lb = lb ∧ cmd.port_name = pn ∧
      cmd.backend_ip = (if v = 6 then "[" ++ bip ++ "]" else bip) ∧
      cmd.src_ip = (if v = 6 then "[" ++ sip ++ "]" else sip) ∧
      (∀ db row, db.lookup lb = some row →
        ∃ row', (cmd.run_idl db).lookup lb = some row' ∧
          row'.ip_port_mappings.lookup cmd.backend_ip =
            some (pn ++ ":" ++ cmd.src_ip)) := by
  refine ⟨{ lb := lb,
            backend_ip := if v = 6 then "[" ++ bip ++ "]" else bip,
            port_name := pn,
            src_ip := if v = 6 then "[" ++ sip ++ "]" else sip },
    ?_, rfl, rfl, rfl, rfl, ?_⟩
  · by_cases h6 : v = 6 <;> simp [AddBackendToIPPortMapping.init, hv, h6]
  · intro db row h
    rw [add_run_found _ db row h]
    exact ⟨_, lookup_dbUpdate db lb _ row h, lookup_setkey _ _ _⟩

/-- Witness for the amended C1 at a concrete IPv6 backend/source pair. -/
theorem C1_witness :
    IPNetwork_version "2001:db8::1" = some 6 ∧
    (∃ cmd, AddBackendToIPPortMapping.init "lb1" "2001:db8::1" "port-a"
        "2001:db8::2" = .ok cmd ∧
      cmd.lb = "lb1" ∧ cmd.port_name = "port-a" ∧
      cmd.backend_ip =
        (if 6 = 6 then "[" ++ "2001:db8::1" ++ "]" else "2001:db8::1") ∧
      cmd.src_ip =
        (if 6 = 6 then "[" ++ "2001:db8::2" ++ "]" else "2001:db8::2") ∧
      (∀ db row, db.lookup "lb1" = some row →
        ∃ row', (cmd.run_idl db).lookup "lb1" = some row' ∧
          row'.ip_port_mappings.lookup cmd.backend_ip =
            some ("port-a" ++ ":" ++ cmd.src_ip))) :=
  ⟨by decide, C1_add_mapping_normalized_by_backend "lb1" "2001:db8::1"
    "port-a" "2001:db8::2" 6 (by decide)⟩

/-- C7: `FindLbInTableCommand` returns exactly the rows whose
`load_balancer` column contains the given load balancer, each wrapped as
a read-only `RowView`, and an empty list — never an error — when no row
matches. -/
theorem C7_find_lb_in_table (rows : List OVNTableRow) (lb : String) :
    (∀ v : RowView, v ∈ FindLbInTableCommand.run_idl rows lb ↔
      v.row ∈ rows ∧ lb ∈ v.row.load_balancer) ∧
    ((∀ r ∈ rows, lb ∉ r.load_balancer) →
      FindLbInTableCommand.run_idl rows lb = []) := by
  refine ⟨find_lb_mem rows lb, fun hnone => ?_⟩
  apply List.eq_nil_iff_forall_not_mem.mpr
  intro v hv
  obtain ⟨hr, hlb⟩ := (find_lb_mem rows lb v).mp hv
  exact hnone v.row hr hlb

/-- Witness for C7: a concrete table in which nothing references the
load balancer yields the empty result. -/
theorem C7_witness :
    FindLbInTableCommand.run_idl [⟨"r2", ([] : List String)⟩] "lb1" = [] :=
  (C7_find_lb_in_table [⟨"r2", ([] : List String)⟩] "lb1").2 (by decide)

end ImplIdlOvn
